import Mathlib

/-
Verification development for the MultiAgentSystem repository.

The development shallowly embeds the Python sources:
  * tools.py      : the tool catalog, the tool implementations
                    (calculadora, obtener_hora, calcular_calorias) and the
                    dispatcher ejecutar_herramienta;
  * llm_client.py : the normalized LLMResponse / ToolCall shapes; the
                    concrete provider adapters are black boxes behind the
                    LLMClient interface, so a client is modelled as a script
                    of responses consumed in order (one list for chat, one
                    for chat_with_tools);
  * agents.py     : AgenteBase, AgenteConHerramientas, the four expert
                    agents, and AgenteOrquestador with its delegation tool.

Python exceptions are modelled with an explicit error type (Except / a
three-valued result), Python numbers with Rat (the textual rendering of a
number is abstracted by pyNumRepr, which no verified claim depends on), and
the unbounded while-loops with an explicit fuel parameter: running out of
fuel (or running out of scripted provider responses) is the `stuck` outcome,
the boundary at which the real program would contact the live provider
again.
-/

/-- A JSON-like Python value, as carried in tool-call arguments. -/
inductive Val where
  | str : String → Val
  | num : Rat → Val
  | list : List Val → Val
  | dict : List (String × Val) → Val
  | none : Val

/-- A Python exception, as raised by the embedded code. -/
inductive PyErr where
  | typeError (msg : String)
  | keyError (key : String)
  | zeroDivisionError
deriving DecidableEq

/-- A single-quote character as a string (used to build the error texts of
tools.py, which quote the offending name between single quotes). -/
def comilla : String := String.singleton (Char.ofNat 39)

/-- Python str() on a Val.  Strings render as themselves; the rendering of
numbers is delegated to pyNumRepr; containers and None are abbreviated
(no verified claim depends on their rendering). -/
def pyNumRepr (q : Rat) : String := toString q

/-- Python str() on a Val (see pyNumRepr for the numeric case). -/
def pyStr : Val → String
  | .str s => s
  | .num q => pyNumRepr q
  | .none => "None"
  | .list _ => "[...]"
  | .dict _ => "[dict]"

/-- Python str.lower (ASCII case folding, which covers the database keys),
written over the character list. -/
def pyLower (s : String) : String := String.mk (s.data.map Char.toLower)

/-- Python int() on a number: truncation toward zero. -/
def pyInt (q : Rat) : Int := q.num.tdiv (q.den : Int)

/-- Whether the list ns occurs as a contiguous prefix of hs. -/
def prefixChars : List Char → List Char → Bool
  | [], _ => true
  | _ :: _, [] => false
  | a :: as, b :: bs => a == b && prefixChars as bs

/-- Whether the list ns occurs contiguously inside hs. -/
def containsChars (ns : List Char) : List Char → Bool
  | [] => prefixChars ns []
  | b :: bs => prefixChars ns (b :: bs) || containsChars ns bs

/-- Python substring containment: needle in hay. -/
def pyIn (needle hay : String) : Bool := containsChars needle.data hay.data

/-- Lookup of a key in a Python dict modelled as an association list. -/
def lookupVal (args : List (String × Val)) (k : String) : Option Val :=
  (args.find? (fun kv => kv.1 == k)).map (fun kv => kv.2)

/-- Keyword-argument binding check: every supplied key is an expected
parameter name (Python raises TypeError on an unexpected keyword). -/
def kwargsExactas (args : List (String × Val)) (params : List String) : Bool :=
  args.all (fun kv => params.contains kv.1)

/-- Python x + y on tool-argument values: numeric addition, string
concatenation, TypeError otherwise. -/
def opSumar (x y : Val) : Except PyErr Val :=
  match x, y with
  | .num a, .num b => .ok (.num (a + b))
  | .str a, .str b => .ok (.str (a ++ b))
  | _, _ => .error (.typeError "unsupported operand type(s) for +")

/-- Python x - y on tool-argument values. -/
def opRestar (x y : Val) : Except PyErr Val :=
  match x, y with
  | .num a, .num b => .ok (.num (a - b))
  | _, _ => .error (.typeError "unsupported operand type(s) for -")

/-- Python x * y on tool-argument values (numeric only; sequence
repetition by an integer is not exercised by any tool argument). -/
def opMultiplicar (x y : Val) : Except PyErr Val :=
  match x, y with
  | .num a, .num b => .ok (.num (a * b))
  | _, _ => .error (.typeError "unsupported operand type(s) for *")

/-- Python y != 0 on a tool-argument value. -/
def pyNeZero (y : Val) : Bool :=
  match y with
  | .num q => decide (q ≠ 0)
  | _ => true

/-- Python x / y on tool-argument values. -/
def opDividirCruda (x y : Val) : Except PyErr Val :=
  match x, y with
  | .num a, .num b =>
      if b = 0 then .error .zeroDivisionError else .ok (.num (a / b))
  | _, _ => .error (.typeError "unsupported operand type(s) for /")

/-- The source lambda for division:
x / y if y != 0 else "Error: división por cero". -/
def opDividir (x y : Val) : Except PyErr Val :=
  if pyNeZero y then opDividirCruda x y else .ok (.str "Error: división por cero")

/-- tools.calculadora.  The operaciones dict is the four-way match on the
operation value; an unrecognized operation yields the error text; otherwise
the selected lambda is applied and the f-string result is rendered. -/
def calculadora (operacion a b : Val) : Except PyErr String :=
  let op? : Option (Val → Val → Except PyErr Val) :=
    match operacion with
    | .str "sumar" => some opSumar
    | .str "restar" => some opRestar
    | .str "multiplicar" => some opMultiplicar
    | .str "dividir" => some opDividir
    | _ => Option.none
  match op? with
  | Option.none =>
      .ok ("Error: operación " ++ comilla ++ pyStr operacion ++ comilla ++ " no reconocida")
  | some op =>
      match op a b with
      | .error e => .error e
      | .ok resultado =>
          .ok ("El resultado de " ++ pyStr a ++ " " ++ pyStr operacion ++ " "
                ++ pyStr b ++ " = " ++ pyStr resultado)

/-- The clock reading of tools.obtener_hora is environmental input; it is
modelled as a fixed timestamp, on which no verified claim depends. -/
def current_datetime : String := "2026-10-12 00:00:00"

/-- tools.obtener_hora. -/
def obtener_hora : String := "Fecha y hora actual: " ++ current_datetime

/-- The calorie database of tools.calcular_calorias, in insertion order
(Python dict iteration order). -/
def calorias_por_100g : List (String × Nat) :=
  [("pollo", 165), ("pechuga de pollo", 165), ("carne", 250), ("carne de res", 250),
   ("cerdo", 242), ("pescado", 120), ("salmon", 208), ("atun", 130), ("huevo", 155),
   ("tofu", 76), ("jamon", 145),
   ("arroz", 130), ("pasta", 131), ("pan", 265), ("papa", 77), ("patata", 77),
   ("quinoa", 120), ("avena", 389), ("tortilla", 218), ("harina", 364),
   ("tomate", 18), ("cebolla", 40), ("ajo", 149), ("zanahoria", 41),
   ("brocoli", 34), ("espinaca", 23), ("lechuga", 15), ("pimiento", 31),
   ("champiñon", 22), ("calabacin", 17), ("berenjena", 25),
   ("leche", 42), ("queso", 402), ("crema", 340), ("yogur", 59), ("mantequilla", 717),
   ("aceite", 884), ("aceite de oliva", 884), ("mayonesa", 680),
   ("frijoles", 347), ("lentejas", 116), ("garbanzos", 164),
   ("manzana", 52), ("platano", 89), ("naranja", 47), ("limon", 29),
   ("azucar", 387), ("sal", 0), ("pimienta", 251), ("chocolate", 546)]

/-- The partial-match lookup of calcular_calorias: the first database key
such that key in nombre or nombre in key. -/
def buscarCalorias (nombre : String) : Option Nat :=
  (calorias_por_100g.find? (fun kv => pyIn kv.1 nombre || pyIn nombre kv.1)).map
    (fun kv => kv.2)

/-- One ingredient of a recipe, as consumed by calcular_calorias. -/
structure Ingrediente where
  nombre : String
  cantidad_gramos : Rat

/-- One iteration of the ingredient loop of calcular_calorias, threading
the accumulated total and the detail lines. -/
def caloriasStep (acc : Rat × List String) (ing : Ingrediente) : Rat × List String :=
  let nombre := pyLower ing.nombre
  let gramos := ing.cantidad_gramos
  match buscarCalorias nombre with
  | Option.none =>
      let est := pyInt (gramos * 100 / 100)
      (acc.1, acc.2 ++ ["  - " ++ nombre ++ ": " ++ pyNumRepr gramos ++ "g → ~"
                          ++ toString est ++ " kcal (estimado)"])
  | some cal =>
      let calorias_ing := gramos * (cal : Rat) / 100
      (acc.1 + calorias_ing,
       acc.2 ++ ["  - " ++ nombre ++ ": " ++ pyNumRepr gramos ++ "g → "
                   ++ toString (pyInt calorias_ing) ++ " kcal"])

/-- The ingredient loop of calcular_calorias. -/
def caloriasState (ings : List Ingrediente) : Rat × List String :=
  ings.foldl caloriasStep (0, [])

/-- Python x / y on numbers, raising ZeroDivisionError on a zero divisor. -/
def pyDivRat (x y : Rat) : Except PyErr Rat :=
  if y = 0 then .error .zeroDivisionError else .ok (x / y)

/-- The forty-character separator line of the report. -/
def sep40 : String := String.mk (List.replicate 40 (Char.ofNat 61))

/-- The final report string of calcular_calorias. -/
def renderCalorias (total : Rat) (detalles : List String) (porciones porPorcion : Rat) :
    String :=
  "📊 ANÁLISIS NUTRICIONAL\n" ++ sep40 ++ "\nDesglose por ingrediente:\n"
    ++ String.intercalate "\n" detalles ++ "\n\n" ++ sep40
    ++ "\n🔥 Calorías totales: " ++ toString (pyInt total)
    ++ " kcal\n🍽️  Porciones: " ++ pyNumRepr porciones
    ++ "\n📍 Calorías por porción: " ++ toString (pyInt porPorcion) ++ " kcal\n"

/-- tools.calcular_calorias on well-typed arguments.  The only raising
operation in the body is the division by num_porciones, which the source
guards with num_porciones > 0. -/
def calcular_calorias (ingredientes : List Ingrediente) (num_porciones : Rat) :
    Except PyErr String :=
  let st := caloriasState ingredientes
  let total_calorias := st.1
  let detalles := st.2
  match (if num_porciones > 0
          then pyDivRat total_calorias num_porciones
          else .ok total_calorias) with
  | .error e => .error e
  | .ok calorias_por_porcion =>
      .ok (renderCalorias total_calorias detalles num_porciones calorias_por_porcion)

/-- Keyword binding of calculadora(**argumentos): all three parameters are
required and no other keyword is accepted. -/
def bindCalculadora (args : List (String × Val)) : Except PyErr (Val × Val × Val) :=
  if kwargsExactas args ["operacion", "a", "b"] then
    match lookupVal args "operacion", lookupVal args "a", lookupVal args "b" with
    | some o, some a, some b => .ok (o, a, b)
    | _, _, _ => .error (.typeError "calculadora() missing required argument")
  else .error (.typeError "calculadora() got an unexpected keyword argument")

/-- Keyword binding of calcular_calorias(**argumentos). -/
def bindCalorias (args : List (String × Val)) : Except PyErr (Val × Val) :=
  if kwargsExactas args ["ingredientes", "num_porciones"] then
    match lookupVal args "ingredientes", lookupVal args "num_porciones" with
    | some i, some p => .ok (i, p)
    | _, _ => .error (.typeError "calcular_calorias() missing required argument")
  else .error (.typeError "calcular_calorias() got an unexpected keyword argument")

/-- Conversion of one JSON ingredient object to the shape the loop body of
calcular_calorias consumes: ing["nombre"] must exist and support .lower()
(be a string), ing["cantidad_gramos"] must exist and be a number. -/
def toIngrediente (v : Val) : Except PyErr Ingrediente :=
  match v with
  | .dict kvs =>
      match lookupVal kvs "nombre" with
      | Option.none => .error (.keyError "nombre")
      | some (.str s) =>
          match lookupVal kvs "cantidad_gramos" with
          | Option.none => .error (.keyError "cantidad_gramos")
          | some (.num g) => .ok ⟨s, g⟩
          | some _ => .error (.typeError "unsupported operand type(s) for *")
      | some _ => .error (.typeError "object has no attribute lower")
  | _ => .error (.typeError "indices must be strings")

/-- Conversion of the whole JSON ingredient array. -/
def toIngredientes : List Val → Except PyErr (List Ingrediente)
  | [] => .ok []
  | v :: vs =>
      match toIngrediente v with
      | .error e => .error e
      | .ok i =>
          match toIngredientes vs with
          | .error e => .error e
          | .ok rest => .ok (i :: rest)

/-- tools.calcular_calorias on raw tool-call argument values. -/
def calcular_calorias_val (ingredientes num_porciones : Val) : Except PyErr String :=
  match ingredientes with
  | .list items =>
      match toIngredientes items with
      | .error e => .error e
      | .ok ings =>
          match num_porciones with
          | .num p => calcular_calorias ings p
          | _ => .error (.typeError "not supported between instances")
  | _ => .error (.typeError "object is not iterable")

/-- tools.ejecutar_herramienta: the dispatcher.  It returns Option String
because the reserved name consultar_agente_experto returns None; a Python
exception escaping a tool body (including keyword binding) propagates. -/
def ejecutar_herramienta (nombre : String) (argumentos : List (String × Val)) :
    Except PyErr (Option String) :=
  if nombre = "calculadora" then
    match bindCalculadora argumentos with
    | .error e => .error e
    | .ok (o, a, b) =>
        match calculadora o a b with
        | .error e => .error e
        | .ok s => .ok (some s)
  else if nombre = "obtener_hora" then
    .ok (some obtener_hora)
  else if nombre = "calcular_calorias" then
    match bindCalorias argumentos with
    | .error e => .error e
    | .ok (i, p) =>
        match calcular_calorias_val i p with
        | .error e => .error e
        | .ok s => .ok (some s)
  else if nombre = "consultar_agente_experto" then
    .ok Option.none
  else
    .ok (some ("Error: herramienta " ++ comilla ++ nombre ++ comilla ++ " no encontrada"))

/-- A tool call as normalized by the provider adapters (llm_client.ToolCall). -/
structure ToolCall where
  id : String
  name : String
  arguments : List (String × Val)

/-- The normalized provider reply (llm_client.LLMResponse).  The raw_message
field is consumed only by create_assistant_message_with_tools, and both
adapters rebuild the history message from the tool calls the reply carries
(OpenAI replays the very message they came from, Gemini re-synthesizes
name/args pairs), so raw_message is represented by the toolCalls list. -/
structure LLMResponse where
  content : Option String
  toolCalls : List ToolCall

/-- One history message, normalized across the two provider wire formats. -/
inductive Msg where
  | system (content : String)
  | user (content : String)
  | assistant (content : Option String)
  | assistantToolCalls (calls : List ToolCall)
  | toolResult (id : String) (content : Option String) (name : String)

/-- A provider stub: the scripted replies the LLMClient returns, consumed
in order — one script for chat, one for chat_with_tools.  An exhausted
script marks the point where the live client would issue a fresh call. -/
structure Client where
  chatScript : List String
  toolScript : List LLMResponse

/-- The outcome of running a piece of the agent code: a normal return, a
propagating Python exception, or stuck (out of fuel or out of scripted
provider replies — the boundary of the finite stub). -/
inductive Res (α : Type) where
  | ok (a : α)
  | exn (e : PyErr)
  | stuck

/-- The state of an agent (agents.AgenteBase / AgenteConHerramientas): the
system prompt fixed at construction, the advertised tool names (the JSON
schemas of the declarations are read only by the live provider) and the
persistent message history. -/
structure Agent where
  system_prompt : String
  tools : List String
  messages : List Msg

/-- AgenteBase.__init__. -/
def mkAgenteBase (prompt : String) : Agent := ⟨prompt, [], [Msg.system prompt]⟩

/-- AgenteConHerramientas.__init__. -/
def mkAgenteConHerramientas (prompt : String) (tools : List String) : Agent :=
  ⟨prompt, tools, [Msg.system prompt]⟩

/-- AgenteBase.nueva_conversacion (textually the same code is repeated in
AgenteOrquestador.nueva_conversacion). -/
def Agent.nueva_conversacion (ag : Agent) : Agent :=
  { ag with messages := [Msg.system ag.system_prompt] }

/-- AgenteBase.pensar: append the user turn, one chat call, append the
assistant turn, return the reply text. -/
def AgenteBase.pensar (c : Client) (ag : Agent) (mensaje : String) :
    Res (Client × Agent × String) :=
  let ag1 := { ag with messages := ag.messages ++ [Msg.user mensaje] }
  match c.chatScript with
  | [] => .stuck
  | r :: rest =>
      .ok ({ c with chatScript := rest },
           { ag1 with messages := ag1.messages ++ [Msg.assistant (some r)] }, r)

/-- The for-loop over response.tool_calls inside AgenteConHerramientas.pensar:
every call is forwarded directly to ejecutar_herramienta and its result is
appended as a tool-result message right away.  The loop never touches the
client, so the client is not threaded through. -/
def execCallsPensar (ag : Agent) : List ToolCall → Except PyErr Agent
  | [] => .ok ag
  | tc :: rest =>
      match ejecutar_herramienta tc.name tc.arguments with
      | .error e => .error e
      | .ok resultado =>
          execCallsPensar
            { ag with messages := ag.messages ++ [Msg.toolResult tc.id resultado tc.name] }
            rest

/-- The while-loop of AgenteConHerramientas.pensar (tools present).  The
source tests `if response.tool_calls:`; here the empty case is written
first, which is the same branching. -/
def pensarToolsLoop (fuel : Nat) (c : Client) (ag : Agent) :
    Res (Client × Agent × Option String) :=
  match fuel with
  | 0 => .stuck
  | fuel + 1 =>
      match c.toolScript with
      | [] => .stuck
      | response :: rest =>
          let c1 := { c with toolScript := rest }
          if response.toolCalls.isEmpty then
            .ok (c1,
                 { ag with messages := ag.messages ++ [Msg.assistant response.content] },
                 response.content)
          else
            let ag1 :=
              { ag with messages := ag.messages ++ [Msg.assistantToolCalls response.toolCalls] }
            match execCallsPensar ag1 response.toolCalls with
            | .error e => .exn e
            | .ok ag2 => pensarToolsLoop fuel c1 ag2

/-- AgenteConHerramientas.pensar: append the user turn; with no tools fall
back to a single chat call, otherwise run the tool loop. -/
def AgenteConHerramientas.pensar (fuel : Nat) (c : Client) (ag : Agent)
    (mensaje : String) : Res (Client × Agent × Option String) :=
  let ag1 := { ag with messages := ag.messages ++ [Msg.user mensaje] }
  if ag1.tools.isEmpty then
    match c.chatScript with
    | [] => .stuck
    | r :: rest =>
        .ok ({ c with chatScript := rest },
             { ag1 with messages := ag1.messages ++ [Msg.assistant (some r)] }, some r)
  else pensarToolsLoop fuel c ag1

/-- System prompt of ExpertoMatematicas. -/
def PROMPT_MATEMATICAS : String :=
  "Eres un experto en matemáticas. Tu trabajo es:\n- Resolver problemas matemáticos paso a paso\n- Explicar conceptos de forma clara\n- Mostrar el razonamiento detrás de cada paso\n\nResponde de forma concisa pero completa."

/-- System prompt of ExpertoEscritura. -/
def PROMPT_ESCRITURA : String :=
  "Eres un experto en escritura y redacción. Tu trabajo es:\n- Ayudar a redactar textos claros y efectivos\n- Corregir y mejorar la gramática\n- Sugerir mejores formas de expresar ideas\n\nResponde de forma concisa pero completa."

/-- System prompt of ExpertoCodigo. -/
def PROMPT_CODIGO : String :=
  "Eres un experto en programación. Tu trabajo es:\n- Escribir código limpio y bien documentado\n- Explicar conceptos de programación\n- Ayudar a debuggear problemas\n\nResponde de forma concisa. Usa ejemplos de código cuando sea útil."

/-- System prompt of ExpertoCocinero (the multi-step conversational flow;
its precise wording is inert data for every verified claim). -/
def PROMPT_COCINERO : String :=
  "Eres un chef experto y amigable. Tu trabajo es ayudar a crear recetas personalizadas.\n\nFLUJO DE CONVERSACIÓN - Sigue estos pasos EN ORDEN:\n\nPASO 1: Cuando el usuario pida una receta, PRIMERO pregunta:\n   \"🍽️ ¡Genial! Para preparar la mejor receta, necesito saber:\n    - ¿Para cuántas personas será?\"\n\nPASO 2: Después de saber las porciones, pregunta:\n   \"¿Qué tipo de cocina prefieres? (italiana, mexicana, asiática, casera, etc.)\"\n\nPASO 3: Con esa información, presenta la receta completa con:\n   - Nombre del plato\n   - Ingredientes con cantidades en gramos (esto es IMPORTANTE para calcular calorías)\n   - Pasos de preparación numerados\n   - Tiempo estimado de preparación\n\n   Luego indica: \"📊 Voy a calcular las calorías de esta receta...\"\n   Y usa la herramienta calcular_calorias con los ingredientes.\n\nPASO 4: Después de mostrar las calorías, pregunta:\n   \"⚠️ ¿Algún comensal tiene alergias alimentarias o restricciones dietéticas?\n    (gluten, lactosa, frutos secos, mariscos, vegetariano, vegano, etc.)\"\n\nPASO 5: Si hay alergias/restricciones:\n   - Modifica la receta sustituyendo ingredientes problemáticos\n   - Presenta la nueva versión adaptada\n   - Recalcula las calorías con calcular_calorias\n\nSi NO hay alergias, responde: \"¡Perfecto! Tu receta está lista. ¡Buen provecho! 👨‍🍳\"\n\nREGLAS IMPORTANTES:\n- Sé cálido y entusiasta, usa emojis relacionados con comida\n- Siempre especifica cantidades en GRAMOS para poder calcular calorías\n- No saltes pasos, sigue el flujo en orden\n- Si el usuario da toda la información de una vez, adapta el flujo\n- Para las calorías, SIEMPRE usa la herramienta calcular_calorias"

/-- The tool names advertised by ExpertoCocinero.TOOLS_COCINERO. -/
def TOOLS_COCINERO : List String := ["calcular_calorias"]

/-- The tool names advertised by tools.TOOLS_DEFINITION. -/
def TOOLS_DEFINITION : List String :=
  ["calculadora", "obtener_hora", "consultar_agente_experto", "calcular_calorias"]

/-- ExpertoMatematicas.__init__ (an AgenteBase). -/
def mkExpertoMatematicas : Agent := mkAgenteBase PROMPT_MATEMATICAS

/-- ExpertoEscritura.__init__ (an AgenteBase). -/
def mkExpertoEscritura : Agent := mkAgenteBase PROMPT_ESCRITURA

/-- ExpertoCodigo.__init__ (an AgenteBase). -/
def mkExpertoCodigo : Agent := mkAgenteBase PROMPT_CODIGO

/-- ExpertoCocinero.__init__ (an AgenteConHerramientas with TOOLS_COCINERO). -/
def mkExpertoCocinero : Agent := mkAgenteConHerramientas PROMPT_COCINERO TOOLS_COCINERO

/-- The fixed expert map built in AgenteOrquestador.__init__. -/
structure Expertos where
  matematicas : Agent
  escritura : Agent
  codigo : Agent
  cocina : Agent

/-- System prompt of AgenteOrquestador. -/
def PROMPT_ORQUESTADOR : String :=
  "Eres un asistente inteligente que orquesta tareas.\n\nTu trabajo es:\n1. Analizar lo que el usuario necesita\n2. Decidir si puedes responder directamente o necesitas usar herramientas\n3. Para cálculos simples, usa la calculadora\n4. Para preguntas sobre fecha/hora, usa obtener_hora\n5. Para calcular calorías de recetas, usa calcular_calorias\n6. Para tareas complejas que requieren expertise, consulta a un agente experto:\n   - matematicas: problemas matemáticos y lógica\n   - escritura: redacción y gramática\n   - codigo: programación y debugging\n   - cocina: recetas, nutrición y consejos culinarios\n\nIMPORTANTE:\n- Usa las herramientas disponibles cuando sea apropiado\n- No inventes información, usa las herramientas para obtenerla\n- Para recetas y comida, SIEMPRE delega al experto de cocina\n- Sé conciso en tus respuestas"

/-- The state of the orchestrator (agents.AgenteOrquestador): prompt,
expert map, message history. -/
structure Orq where
  system_prompt : String
  expertos : Expertos
  messages : List Msg

/-- AgenteOrquestador.__init__. -/
def mkAgenteOrquestador : Orq :=
  ⟨PROMPT_ORQUESTADOR,
   ⟨mkExpertoMatematicas, mkExpertoEscritura, mkExpertoCodigo, mkExpertoCocinero⟩,
   [Msg.system PROMPT_ORQUESTADOR]⟩

/-- AgenteOrquestador.nueva_conversacion. -/
def Orq.nueva_conversacion (orq : Orq) : Orq :=
  { orq with messages := [Msg.system orq.system_prompt] }

/-- AgenteOrquestador._consultar_experto.  The expert dict has the four
fixed keys of the constructor; a value of any other shape fails the
membership test and yields the error text.  The
isinstance(experto, AgenteConHerramientas) branch selects the tool-loop
pensar, which among the four experts only the cocina expert takes. -/
def consultarExperto (fuel : Nat) (c : Client) (orq : Orq) (tipo_experto : Val)
    (consulta : String) : Res (Client × Orq × Option String) :=
  match tipo_experto with
  | .str "matematicas" =>
      match AgenteBase.pensar c orq.expertos.matematicas consulta with
      | .stuck => .stuck
      | .exn e => .exn e
      | .ok (c1, ag1, r) =>
          .ok (c1, { orq with expertos := { orq.expertos with matematicas := ag1 } }, some r)
  | .str "escritura" =>
      match AgenteBase.pensar c orq.expertos.escritura consulta with
      | .stuck => .stuck
      | .exn e => .exn e
      | .ok (c1, ag1, r) =>
          .ok (c1, { orq with expertos := { orq.expertos with escritura := ag1 } }, some r)
  | .str "codigo" =>
      match AgenteBase.pensar c orq.expertos.codigo consulta with
      | .stuck => .stuck
      | .exn e => .exn e
      | .ok (c1, ag1, r) =>
          .ok (c1, { orq with expertos := { orq.expertos with codigo := ag1 } }, some r)
  | .str "cocina" =>
      match AgenteConHerramientas.pensar fuel c orq.expertos.cocina consulta with
      | .stuck => .stuck
      | .exn e => .exn e
      | .ok (c1, ag1, r) =>
          .ok (c1, { orq with expertos := { orq.expertos with cocina := ag1 } }, r)
  | _ =>
      .ok (c, orq,
           some ("Error: no existe el experto " ++ comilla ++ pyStr tipo_experto ++ comilla))

/-- One iteration of the for-loop over response.tool_calls inside
AgenteOrquestador.procesar: the reserved delegation tool name is
intercepted before reaching the registry dispatcher.  The delegation
arguments are read with Python dict indexing (KeyError when absent); the
only observed queries are strings, so the query value is coerced through
str(). -/
def pasoProcesar (fuel : Nat) (c : Client) (orq : Orq) (tc : ToolCall) :
    Res (Client × Orq × Option String) :=
  if tc.name = "consultar_agente_experto" then
    match lookupVal tc.arguments "tipo_experto" with
    | Option.none => .exn (.keyError "tipo_experto")
    | some tipo =>
        match lookupVal tc.arguments "consulta" with
        | Option.none => .exn (.keyError "consulta")
        | some consulta => consultarExperto fuel c orq tipo (pyStr consulta)
  else
    match ejecutar_herramienta tc.name tc.arguments with
    | .error e => .exn e
    | .ok r => .ok (c, orq, r)

/-- The for-loop over response.tool_calls inside AgenteOrquestador.procesar:
each call is resolved by pasoProcesar and its result appended as a
tool-result message right away. -/
def execCallsProcesar (fuel : Nat) (c : Client) (orq : Orq) :
    List ToolCall → Res (Client × Orq)
  | [] => .ok (c, orq)
  | tc :: rest =>
      match pasoProcesar fuel c orq tc with
      | .stuck => .stuck
      | .exn e => .exn e
      | .ok (c1, orq1, resultado) =>
          execCallsProcesar fuel c1
            { orq1 with messages := orq1.messages ++ [Msg.toolResult tc.id resultado tc.name] }
            rest

/-- The while-loop of AgenteOrquestador.procesar. -/
def procesarLoop (fuel : Nat) (c : Client) (orq : Orq) :
    Res (Client × Orq × Option String) :=
  match fuel with
  | 0 => .stuck
  | fuel + 1 =>
      match c.toolScript with
      | [] => .stuck
      | response :: rest =>
          let c1 := { c with toolScript := rest }
          if response.toolCalls.isEmpty then
            .ok (c1,
                 { orq with messages := orq.messages ++ [Msg.assistant response.content] },
                 response.content)
          else
            let orq1 :=
              { orq with messages := orq.messages ++ [Msg.assistantToolCalls response.toolCalls] }
            match execCallsProcesar fuel c1 orq1 response.toolCalls with
            | .stuck => .stuck
            | .exn e => .exn e
            | .ok (c2, orq2) => procesarLoop fuel c2 orq2

/-- AgenteOrquestador.procesar: append the user turn and run the loop. -/
def AgenteOrquestador.procesar (fuel : Nat) (c : Client) (orq : Orq)
    (mensaje_usuario : String) : Res (Client × Orq × Option String) :=
  procesarLoop fuel c { orq with messages := orq.messages ++ [Msg.user mensaje_usuario] }

/-- The tool-result content the pensar loop appends for one call, when the
call executes without an exception. -/
def execResult (tc : ToolCall) : Option String :=
  match ejecutar_herramienta tc.name tc.arguments with
  | .ok r => r
  | .error _ => Option.none

/-- The block of tool-result messages one model turn produces when every
call executes without an exception, in call order. -/
def toolResultMsgs (tcs : List ToolCall) : List Msg :=
  tcs.map (fun tc => Msg.toolResult tc.id (execResult tc) tc.name)

/-- Tool-result messages for an arbitrary list of result contents. -/
def zipToolResults (tcs : List ToolCall) (rs : List (Option String)) : List Msg :=
  List.zipWith (fun tc r => Msg.toolResult tc.id r tc.name) tcs rs

lemma head?_append_some {α : Type} {l l' : List α} {x : α} (h : l.head? = some x) :
    (l ++ l').head? = some x := by
  cases l with
  | nil => simp at h
  | cons a t => simpa using h

lemma execCallsPensar_all_ok : ∀ (tcs : List ToolCall) (ag : Agent),
    (∀ tc ∈ tcs, ∃ s, ejecutar_herramienta tc.name tc.arguments = .ok s) →
    execCallsPensar ag tcs = .ok { ag with messages := ag.messages ++ toolResultMsgs tcs }
  | [], ag, _ => by simp [execCallsPensar, toolResultMsgs]
  | tc :: rest, ag, h => by
      obtain ⟨s, hs⟩ := h tc (List.mem_cons_self tc rest)
      have hr := execCallsPensar_all_ok rest
        { ag with messages := ag.messages ++ [Msg.toolResult tc.id s tc.name] }
        (fun tc' h' => h tc' (List.mem_cons_of_mem _ h'))
      simp [execCallsPensar, hs, hr, toolResultMsgs, execResult, List.append_assoc]

lemma consultarExperto_ok_frame {fuel : Nat} {c : Client} {orq : Orq} {tipo : Val}
    {consulta : String} {c1 : Client} {orq1 : Orq} {r : Option String}
    (h : consultarExperto fuel c orq tipo consulta = .ok (c1, orq1, r)) :
    orq1.messages = orq.messages ∧ orq1.system_prompt = orq.system_prompt := by
  unfold consultarExperto at h
  split at h <;> (try split at h) <;> simp_all <;>
    exact ⟨by rw [← h.2.1], by rw [← h.2.1]⟩

lemma pasoProcesar_ok_frame {fuel : Nat} {c : Client} {orq : Orq} {tc : ToolCall}
    {c1 : Client} {orq1 : Orq} {r : Option String}
    (h : pasoProcesar fuel c orq tc = .ok (c1, orq1, r)) :
    orq1.messages = orq.messages ∧ orq1.system_prompt = orq.system_prompt := by
  unfold pasoProcesar at h
  split at h
  · split at h
    · simp_all
    · split at h
      · simp_all
      · exact consultarExperto_ok_frame h
  · split at h <;> simp_all

lemma execCallsProcesar_ok_msgs : ∀ (tcs : List ToolCall) (fuel : Nat) (c : Client)
    (orq : Orq) (c' : Client) (orq' : Orq),
    execCallsProcesar fuel c orq tcs = .ok (c', orq') →
    ∃ rs, rs.length = tcs.length ∧ orq'.messages = orq.messages ++ zipToolResults tcs rs
      ∧ orq'.system_prompt = orq.system_prompt
  | [], fuel, c, orq, c', orq', h => by
      simp [execCallsProcesar] at h
      exact ⟨[], by simp [zipToolResults, h.2.symm]⟩
  | tc :: rest, fuel, c, orq, c', orq', h => by
      unfold execCallsProcesar at h
      split at h
      · exact absurd h (by simp)
      · exact absurd h (by simp)
      · rename_i c1 orq1 resultado heq
        obtain ⟨rs, hlen, hmsg, hprompt⟩ := execCallsProcesar_ok_msgs rest fuel c1 _ c' orq' h
        obtain ⟨hm1, hp1⟩ := pasoProcesar_ok_frame heq
        refine ⟨resultado :: rs, by simp [hlen], ?_, by simp_all⟩
        simp [hmsg, hm1, zipToolResults, List.append_assoc]

lemma pasoProcesar_nodeleg {fuel : Nat} {c : Client} {orq : Orq} {tc : ToolCall}
    {r : Option String} (hname : tc.name ≠ "consultar_agente_experto")
    (hok : ejecutar_herramienta tc.name tc.arguments = .ok r) :
    pasoProcesar fuel c orq tc = .ok (c, orq, r) := by
  simp [pasoProcesar, hname, hok]

lemma execCallsProcesar_nodeleg : ∀ (tcs : List ToolCall) (fuel : Nat) (c : Client) (orq : Orq),
    (∀ tc ∈ tcs, tc.name ≠ "consultar_agente_experto"
       ∧ ∃ s, ejecutar_herramienta tc.name tc.arguments = .ok s) →
    execCallsProcesar fuel c orq tcs
      = .ok (c, { orq with messages := orq.messages ++ toolResultMsgs tcs })
  | [], fuel, c, orq, _ => by simp [execCallsProcesar, toolResultMsgs]
  | tc :: rest, fuel, c, orq, h => by
      obtain ⟨hname, s, hs⟩ := h tc (List.mem_cons_self tc rest)
      have hrec := execCallsProcesar_nodeleg rest fuel c
        { orq with messages := orq.messages ++ [Msg.toolResult tc.id s tc.name] }
        (fun tc' h' => h tc' (List.mem_cons_of_mem _ h'))
      simp [execCallsProcesar, pasoProcesar_nodeleg hname hs, hrec, toolResultMsgs,
            execResult, hs, List.append_assoc]

lemma isEmpty_false_of_ne {α : Type} {l : List α} (h : l ≠ []) : l.isEmpty = false := by
  cases l <;> simp_all

/-- A scripted chat_with_tools reply that keeps the pensar loop going and
whose tool calls all execute without a Python exception. -/
def respOkPensar (r : LLMResponse) : Prop :=
  r.toolCalls ≠ [] ∧ ∀ tc ∈ r.toolCalls, ∃ s, ejecutar_herramienta tc.name tc.arguments = .ok s

/-- A scripted chat_with_tools reply that keeps the procesar loop going,
requests no delegation, and whose tool calls all execute without a Python
exception. -/
def respOkProcesar (r : LLMResponse) : Prop :=
  r.toolCalls ≠ [] ∧ ∀ tc ∈ r.toolCalls, tc.name ≠ "consultar_agente_experto"
    ∧ ∃ s, ejecutar_herramienta tc.name tc.arguments = .ok s

lemma pensarToolsLoop_script : ∀ (pre : List LLMResponse) (fuel : Nat) (c : Client)
    (ag : Agent) (final : LLMResponse) (rest : List LLMResponse),
    (∀ r ∈ pre, respOkPensar r) → final.toolCalls = [] → pre.length < fuel →
    ∃ ag', pensarToolsLoop fuel { c with toolScript := pre ++ final :: rest } ag
      = .ok ({ c with toolScript := rest }, ag', final.content)
  | [], fuel, c, ag, final, rest, _, hfin, hfuel => by
      cases fuel with
      | zero => exact absurd hfuel (by omega)
      | succ f =>
          refine ⟨{ ag with messages := ag.messages ++ [Msg.assistant final.content] }, ?_⟩
          simp [pensarToolsLoop, hfin]
  | r :: pre, fuel, c, ag, final, rest, h, hfin, hfuel => by
      cases fuel with
      | zero => exact absurd hfuel (by omega)
      | succ f =>
          obtain ⟨hne, hall⟩ := h r (List.mem_cons_self r pre)
          have hexec := execCallsPensar_all_ok r.toolCalls
            { ag with messages := ag.messages ++ [Msg.assistantToolCalls r.toolCalls] } hall
          obtain ⟨ag', hrec⟩ := pensarToolsLoop_script pre f c
            { ag with messages := (ag.messages ++ [Msg.assistantToolCalls r.toolCalls])
                ++ toolResultMsgs r.toolCalls }
            final rest (fun r' h' => h r' (List.mem_cons_of_mem _ h')) hfin (by
              simp at hfuel
              omega)
          refine ⟨ag', ?_⟩
          simp only [pensarToolsLoop, List.cons_append, isEmpty_false_of_ne hne,
            Bool.false_eq_true, if_false, hexec]
          exact hrec

lemma procesarLoop_script : ∀ (pre : List LLMResponse) (fuel : Nat) (c : Client)
    (orq : Orq) (final : LLMResponse) (rest : List LLMResponse),
    (∀ r ∈ pre, respOkProcesar r) → final.toolCalls = [] → pre.length < fuel →
    ∃ orq', procesarLoop fuel { c with toolScript := pre ++ final :: rest } orq
      = .ok ({ c with toolScript := rest }, orq', final.content)
  | [], fuel, c, orq, final, rest, _, hfin, hfuel => by
      cases fuel with
      | zero => exact absurd hfuel (by omega)
      | succ f =>
          refine ⟨{ orq with messages := orq.messages ++ [Msg.assistant final.content] }, ?_⟩
          simp [procesarLoop, hfin]
  | r :: pre, fuel, c, orq, final, rest, h, hfin, hfuel => by
      cases fuel with
      | zero => exact absurd hfuel (by omega)
      | succ f =>
          obtain ⟨hne, hall⟩ := h r (List.mem_cons_self r pre)
          have hexec := execCallsProcesar_nodeleg r.toolCalls f { c with toolScript := pre ++ final :: rest }
            { orq with messages := orq.messages ++ [Msg.assistantToolCalls r.toolCalls] } hall
          obtain ⟨orq', hrec⟩ := procesarLoop_script pre f c
            { orq with messages := (orq.messages ++ [Msg.assistantToolCalls r.toolCalls])
                ++ toolResultMsgs r.toolCalls }
            final rest (fun r' h' => h r' (List.mem_cons_of_mem _ h')) hfin (by
              simp at hfuel
              omega)
          refine ⟨orq', ?_⟩
          simp only [procesarLoop, List.cons_append, isEmpty_false_of_ne hne,
            Bool.false_eq_true, if_false, hexec]
          exact hrec

/-- Claim C1 (amended): given a provider stub whose first k-1
chat_with_tools replies each carry at least one tool call, all of which
execute without a Python exception (and, for procesar, none of which is
the reserved delegation tool), and whose k-th reply carries no tool call,
a single AgenteConHerramientas.pensar with non-empty tools, or a single
AgenteOrquestador.procesar, returns after consuming exactly those k
scripted chat_with_tools replies — the remaining tool script is exactly
the unconsumed tail and the chat script is untouched — and the returned
text is exactly the k-th reply's content field. -/
theorem c1_loop_termination :
    (∀ (pre : List LLMResponse) (final : LLMResponse) (rest : List LLMResponse)
       (c : Client) (ag : Agent) (mensaje : String) (fuel : Nat),
       ag.tools ≠ [] → pre.length < fuel →
       (∀ r ∈ pre, respOkPensar r) → final.toolCalls = [] →
       ∃ ag', AgenteConHerramientas.pensar fuel
           { c with toolScript := pre ++ final :: rest } ag mensaje
         = .ok ({ c with toolScript := rest }, ag', final.content))
    ∧ (∀ (pre : List LLMResponse) (final : LLMResponse) (rest : List LLMResponse)
       (c : Client) (orq : Orq) (mensaje : String) (fuel : Nat),
       pre.length < fuel →
       (∀ r ∈ pre, respOkProcesar r) → final.toolCalls = [] →
       ∃ orq', AgenteOrquestador.procesar fuel
           { c with toolScript := pre ++ final :: rest } orq mensaje
         = .ok ({ c with toolScript := rest }, orq', final.content)) := by
  constructor
  · intro pre final rest c ag mensaje fuel htools hfuel hok hfin
    obtain ⟨ag', hl⟩ := pensarToolsLoop_script pre fuel c
      { ag with messages := ag.messages ++ [Msg.user mensaje] } final rest hok hfin hfuel
    refine ⟨ag', ?_⟩
    simp only [AgenteConHerramientas.pensar, isEmpty_false_of_ne htools,
      Bool.false_eq_true, if_false]
    exact hl
  · intro pre final rest c orq mensaje fuel hfuel hok hfin
    obtain ⟨orq', hl⟩ := procesarLoop_script pre fuel c
      { orq with messages := orq.messages ++ [Msg.user mensaje] } final rest hok hfin hfuel
    exact ⟨orq', hl⟩

/-- Witness for c1_loop_termination: a stub with one acting reply (a single
obtener_hora call) followed by a final reply; both loops return "listo"
with the tool script fully consumed. -/
theorem c1_loop_termination_witness :
    (∃ ag', AgenteConHerramientas.pensar 2
        ⟨[], [⟨Option.none, [⟨"t1", "obtener_hora", []⟩]⟩, ⟨some "listo", []⟩]⟩
        (mkAgenteConHerramientas "p" ["calculadora"]) "hola"
      = .ok (⟨[], []⟩, ag', some "listo"))
    ∧ (∃ orq', AgenteOrquestador.procesar 2
        ⟨[], [⟨Option.none, [⟨"t1", "obtener_hora", []⟩]⟩, ⟨some "listo", []⟩]⟩
        mkAgenteOrquestador "hola"
      = .ok (⟨[], []⟩, orq', some "listo")) := by
  constructor
  · exact c1_loop_termination.1 [⟨Option.none, [⟨"t1", "obtener_hora", []⟩]⟩]
      ⟨some "listo", []⟩ [] ⟨[], []⟩ (mkAgenteConHerramientas "p" ["calculadora"]) "hola" 2
      (by simp [mkAgenteConHerramientas]) (by simp)
      (by
        rintro r hr
        rw [List.mem_singleton] at hr
        subst hr
        refine ⟨by simp, ?_⟩
        rintro tc htc
        rw [List.mem_singleton] at htc
        subst htc
        exact ⟨some obtener_hora, rfl⟩)
      rfl
  · exact c1_loop_termination.2 [⟨Option.none, [⟨"t1", "obtener_hora", []⟩]⟩]
      ⟨some "listo", []⟩ [] ⟨[], []⟩ mkAgenteOrquestador "hola" 2
      (by simp)
      (by
        rintro r hr
        rw [List.mem_singleton] at hr
        subst hr
        refine ⟨by simp, ?_⟩
        rintro tc htc
        rw [List.mem_singleton] at htc
        subst htc
        exact ⟨by simp, some obtener_hora, rfl⟩)
      rfl

/-- The concrete provider stub refuting claim C1 as frozen: the first
chat_with_tools reply delegates to the cocina expert and the second (the
k-th, k = 2) carries no tool call. -/
def c1Stub : Client :=
  ⟨[], [⟨some "delego", [⟨"d1", "consultar_agente_experto",
      [("tipo_experto", Val.str "cocina"), ("consulta", Val.str "una receta")]⟩]⟩,
    ⟨some "receta lista", []⟩]⟩

/-- Claim C1 counterexample: with c1Stub the stub's second chat_with_tools
reply carries no tool call, yet procesar does not return after two
provider calls with that reply's content "receta lista": the cocina
expert's own tool loop (running against the same client) consumes the
second reply, the orchestrator loops again, and the run ends stuck on an
exhausted script — the program would issue a third provider call.  The
fuel 10 bounds more iterations than the two-reply script can feed, so the
outcome is decided by the script alone. -/
theorem c1_counterexample :
    AgenteOrquestador.procesar 10 c1Stub mkAgenteOrquestador "quiero una receta"
      = Res.stuck := rfl

/-- Claim C2: when a chat_with_tools reply carries N >= 1 tool calls, one
loop iteration (of both the pensar and the procesar loop) appends exactly
one assistant-tool-call message followed by exactly N tool-result
messages, in the order the calls appear in the reply, each appended right
after its call executes, with nothing interleaved; the loop then
re-invokes the model on the extended history.  For the pensar loop this is
stated with the concrete per-call results (under the hypothesis that every
call executes without a Python exception); for the procesar loop it is
stated for any completed execution of the call list, delegation included. -/
theorem c2_order_preservation :
    (∀ (c : Client) (content : Option String) (tcs : List ToolCall)
       (rest : List LLMResponse) (ag : Agent) (fuel : Nat),
       tcs ≠ [] →
       (∀ tc ∈ tcs, ∃ s, ejecutar_herramienta tc.name tc.arguments = .ok s) →
       pensarToolsLoop (fuel + 1) { c with toolScript := ⟨content, tcs⟩ :: rest } ag
         = pensarToolsLoop fuel { c with toolScript := rest }
             { ag with messages := ag.messages
                 ++ (Msg.assistantToolCalls tcs :: toolResultMsgs tcs) })
    ∧ (∀ (fuel : Nat) (c : Client) (orq : Orq) (tcs : List ToolCall)
       (c2 : Client) (orq2 : Orq),
       execCallsProcesar fuel c
           { orq with messages := orq.messages ++ [Msg.assistantToolCalls tcs] } tcs
         = .ok (c2, orq2) →
       ∃ rs, rs.length = tcs.length
         ∧ orq2.messages = orq.messages
             ++ (Msg.assistantToolCalls tcs :: zipToolResults tcs rs))
    ∧ (∀ (c : Client) (content : Option String) (tcs : List ToolCall)
       (rest : List LLMResponse) (orq : Orq) (fuel : Nat)
       (c2 : Client) (orq2 : Orq),
       tcs ≠ [] →
       execCallsProcesar fuel { c with toolScript := rest }
           { orq with messages := orq.messages ++ [Msg.assistantToolCalls tcs] } tcs
         = .ok (c2, orq2) →
       procesarLoop (fuel + 1) { c with toolScript := ⟨content, tcs⟩ :: rest } orq
         = procesarLoop fuel c2 orq2) := by
  refine ⟨?_, ?_, ?_⟩
  · intro c content tcs rest ag fuel hne hall
    have hexec := execCallsPensar_all_ok tcs
      { ag with messages := ag.messages ++ [Msg.assistantToolCalls tcs] } hall
    simp only [pensarToolsLoop, isEmpty_false_of_ne hne, Bool.false_eq_true, if_false,
      hexec]
    congr 1
    simp [List.append_assoc]
  · intro fuel c orq tcs c2 orq2 h
    obtain ⟨rs, hlen, hmsg, _⟩ := execCallsProcesar_ok_msgs tcs fuel c _ c2 orq2 h
    exact ⟨rs, hlen, by simp [hmsg, List.append_assoc]⟩
  · intro c content tcs rest orq fuel c2 orq2 hne hexec
    simp only [procesarLoop, isEmpty_false_of_ne hne, Bool.false_eq_true, if_false, hexec]

/-- Witness for c2_order_preservation: a reply with two tool calls (a
clock read and an unknown name) for the pensar conjunct, and a completed
single-call execution for the two procesar conjuncts. -/
theorem c2_order_preservation_witness :
    (pensarToolsLoop 1 ⟨[], [⟨some "x", [⟨"t1", "obtener_hora", []⟩, ⟨"t2", "nada", []⟩]⟩]⟩
        (mkAgenteConHerramientas "p" ["calculadora"])
      = pensarToolsLoop 0 ⟨[], []⟩
          { mkAgenteConHerramientas "p" ["calculadora"] with messages :=
              (mkAgenteConHerramientas "p" ["calculadora"]).messages
                ++ (Msg.assistantToolCalls [⟨"t1", "obtener_hora", []⟩, ⟨"t2", "nada", []⟩]
                    :: toolResultMsgs [⟨"t1", "obtener_hora", []⟩, ⟨"t2", "nada", []⟩]) })
    ∧ (∃ rs, rs.length = 1
        ∧ (⟨"p", ⟨mkAgenteBase "m", mkAgenteBase "e", mkAgenteBase "c", mkAgenteBase "k"⟩,
              [Msg.assistantToolCalls [⟨"t1", "obtener_hora", []⟩],
               Msg.toolResult "t1" (some obtener_hora) "obtener_hora"]⟩ : Orq).messages
          = ([] : List Msg)
              ++ (Msg.assistantToolCalls [⟨"t1", "obtener_hora", []⟩]
                  :: zipToolResults [⟨"t1", "obtener_hora", []⟩] rs))
    ∧ (procesarLoop 2 ⟨[], [⟨some "x", [⟨"t1", "obtener_hora", []⟩]⟩]⟩
        (⟨"p", ⟨mkAgenteBase "m", mkAgenteBase "e", mkAgenteBase "c", mkAgenteBase "k"⟩, []⟩ : Orq)
      = procesarLoop 1 ⟨[], []⟩
          ⟨"p", ⟨mkAgenteBase "m", mkAgenteBase "e", mkAgenteBase "c", mkAgenteBase "k"⟩,
            [Msg.assistantToolCalls [⟨"t1", "obtener_hora", []⟩],
             Msg.toolResult "t1" (some obtener_hora) "obtener_hora"]⟩) := by
  refine ⟨?_, ?_, ?_⟩
  · exact c2_order_preservation.1 ⟨[], []⟩ (some "x")
      [⟨"t1", "obtener_hora", []⟩, ⟨"t2", "nada", []⟩] []
      (mkAgenteConHerramientas "p" ["calculadora"]) 0
      (by simp)
      (by
        rintro tc htc
        simp only [List.mem_cons, List.not_mem_nil, or_false] at htc
        rcases htc with rfl | rfl
        · exact ⟨some obtener_hora, rfl⟩
        · exact ⟨_, rfl⟩)
  · exact c2_order_preservation.2.1 1 ⟨[], []⟩
      ⟨"p", ⟨mkAgenteBase "m", mkAgenteBase "e", mkAgenteBase "c", mkAgenteBase "k"⟩, []⟩
      [⟨"t1", "obtener_hora", []⟩] ⟨[], []⟩
      ⟨"p", ⟨mkAgenteBase "m", mkAgenteBase "e", mkAgenteBase "c", mkAgenteBase "k"⟩,
        [Msg.assistantToolCalls [⟨"t1", "obtener_hora", []⟩],
         Msg.toolResult "t1" (some obtener_hora) "obtener_hora"]⟩
      rfl
  · exact c2_order_preservation.2.2 ⟨[], []⟩ (some "x") [⟨"t1", "obtener_hora", []⟩] []
      (⟨"p", ⟨mkAgenteBase "m", mkAgenteBase "e", mkAgenteBase "c", mkAgenteBase "k"⟩, []⟩ : Orq) 1
      ⟨[], []⟩
      ⟨"p", ⟨mkAgenteBase "m", mkAgenteBase "e", mkAgenteBase "c", mkAgenteBase "k"⟩,
        [Msg.assistantToolCalls [⟨"t1", "obtener_hora", []⟩],
         Msg.toolResult "t1" (some obtener_hora) "obtener_hora"]⟩
      (by simp) rfl

lemma base_pensar_mono {c : Client} {ag : Agent} {m : String} {c' : Client}
    {ag' : Agent} {r : String} (h : AgenteBase.pensar c ag m = .ok (c', ag', r)) :
    ag'.system_prompt = ag.system_prompt ∧ ag'.tools = ag.tools
      ∧ ∃ suf, ag'.messages = ag.messages ++ suf := by
  unfold AgenteBase.pensar at h
  split at h
  · simp at h
  · rename_i rr rrest heq
    simp only [Res.ok.injEq, Prod.mk.injEq] at h
    obtain ⟨h1, h2, h3⟩ := h
    subst h2
    exact ⟨rfl, rfl, [Msg.user m, Msg.assistant (some rr)], by simp⟩

lemma execCallsPensar_mono : ∀ (tcs : List ToolCall) (ag ag' : Agent),
    execCallsPensar ag tcs = .ok ag' →
    ag'.system_prompt = ag.system_prompt ∧ ag'.tools = ag.tools
      ∧ ∃ suf, ag'.messages = ag.messages ++ suf
  | [], ag, ag', h => by
      simp only [execCallsPensar, Except.ok.injEq] at h
      subst h
      exact ⟨rfl, rfl, [], by simp⟩
  | tc :: rest, ag, ag', h => by
      unfold execCallsPensar at h
      split at h
      · simp at h
      · rename_i resultado heq
        obtain ⟨h1, h2, suf, h3⟩ := execCallsPensar_mono rest _ ag' h
        exact ⟨h1, h2, Msg.toolResult tc.id resultado tc.name :: suf,
          by simp only [h3, List.append_assoc]; rfl⟩

lemma pensarToolsLoop_mono : ∀ (fuel : Nat) (c : Client) (ag : Agent) {c' : Client}
    {ag' : Agent} {r : Option String},
    pensarToolsLoop fuel c ag = .ok (c', ag', r) →
    ag'.system_prompt = ag.system_prompt ∧ ag'.tools = ag.tools
      ∧ ∃ suf, ag'.messages = ag.messages ++ suf
  | 0, c, ag, c', ag', r, h => by simp [pensarToolsLoop] at h
  | fuel + 1, c, ag, c', ag', r, h => by
      unfold pensarToolsLoop at h
      split at h
      · simp at h
      · rename_i response rest2 hscript
        split at h
        · simp only [Res.ok.injEq, Prod.mk.injEq] at h
          obtain ⟨h1, h2, h3⟩ := h
          subst h2
          exact ⟨rfl, rfl, _, rfl⟩
        · simp only [] at h
          split at h
          · simp at h
          · rename_i ag2 heq
            obtain ⟨e1, e2, suf1, e3⟩ := execCallsPensar_mono _ _ _ heq
            obtain ⟨l1, l2, suf2, l3⟩ := pensarToolsLoop_mono fuel _ ag2 h
            refine ⟨l1.trans e1, l2.trans e2, ?_⟩
            refine ⟨Msg.assistantToolCalls response.toolCalls :: (suf1 ++ suf2), ?_⟩
            simp only [l3, e3, List.append_assoc]
            rfl

lemma pensar_tools_mono {fuel : Nat} {c : Client} {ag : Agent} {m : String}
    {c' : Client} {ag' : Agent} {r : Option String}
    (h : AgenteConHerramientas.pensar fuel c ag m = .ok (c', ag', r)) :
    ag'.system_prompt = ag.system_prompt ∧ ag'.tools = ag.tools
      ∧ ∃ suf, ag'.messages = ag.messages ++ suf := by
  unfold AgenteConHerramientas.pensar at h
  simp only [] at h
  split at h
  · split at h
    · simp at h
    · rename_i rr rrest heq
      simp only [Res.ok.injEq, Prod.mk.injEq] at h
      obtain ⟨h1, h2, h3⟩ := h
      subst h2
      exact ⟨rfl, rfl, [Msg.user m, Msg.assistant (some rr)], by simp⟩
  · obtain ⟨l1, l2, suf, l3⟩ := pensarToolsLoop_mono fuel c _ h
    exact ⟨l1, l2, Msg.user m :: suf,
      by simp only [l3, List.append_assoc]; rfl⟩

lemma procesarLoop_mono : ∀ (fuel : Nat) (c : Client) (orq : Orq) {c' : Client}
    {orq' : Orq} {r : Option String},
    procesarLoop fuel c orq = .ok (c', orq', r) →
    orq'.system_prompt = orq.system_prompt ∧ ∃ suf, orq'.messages = orq.messages ++ suf
  | 0, c, orq, c', orq', r, h => by simp [procesarLoop] at h
  | fuel + 1, c, orq, c', orq', r, h => by
      unfold procesarLoop at h
      split at h
      · simp at h
      · rename_i response rest2 hscript
        split at h
        · simp only [Res.ok.injEq, Prod.mk.injEq] at h
          obtain ⟨h1, h2, h3⟩ := h
          subst h2
          exact ⟨rfl, _, rfl⟩
        · simp only [] at h
          split at h
          · simp at h
          · simp at h
          · rename_i c2 orq2 heq
            obtain ⟨rs, hlen, hmsg, hprompt⟩ :=
              execCallsProcesar_ok_msgs _ fuel _ _ c2 orq2 heq
            obtain ⟨l1, suf2, l3⟩ := procesarLoop_mono fuel c2 orq2 h
            refine ⟨l1.trans hprompt, ?_⟩
            refine ⟨Msg.assistantToolCalls response.toolCalls
              :: (zipToolResults response.toolCalls rs ++ suf2), ?_⟩
            simp only [l3, hmsg, List.append_assoc]
            rfl

lemma procesar_mono {fuel : Nat} {c : Client} {orq : Orq} {m : String}
    {c' : Client} {orq' : Orq} {r : Option String}
    (h : AgenteOrquestador.procesar fuel c orq m = .ok (c', orq', r)) :
    orq'.system_prompt = orq.system_prompt ∧ ∃ suf, orq'.messages = orq.messages ++ suf := by
  unfold AgenteOrquestador.procesar at h
  obtain ⟨l1, suf, l3⟩ := procesarLoop_mono fuel c _ h
  exact ⟨l1, Msg.user m :: suf, by simp only [l3, List.append_assoc]; rfl⟩

/-- The agent states reachable from construction through any sequence of
pensar calls (in either the AgenteBase or the AgenteConHerramientas form)
and nueva_conversacion resets; AgenteBase construction is the tools = []
case. -/
inductive AgentReach (prompt : String) (tools : List String) : Agent → Prop where
  | init : AgentReach prompt tools (mkAgenteConHerramientas prompt tools)
  | stepBase : ∀ {ag : Agent} {c : Client} {m : String} {c' : Client} {ag' : Agent}
      {r : String}, AgentReach prompt tools ag →
      AgenteBase.pensar c ag m = .ok (c', ag', r) → AgentReach prompt tools ag'
  | stepTools : ∀ {ag : Agent} {fuel : Nat} {c : Client} {m : String} {c' : Client}
      {ag' : Agent} {r : Option String}, AgentReach prompt tools ag →
      AgenteConHerramientas.pensar fuel c ag m = .ok (c', ag', r) →
      AgentReach prompt tools ag'
  | stepReset : ∀ {ag : Agent}, AgentReach prompt tools ag →
      AgentReach prompt tools ag.nueva_conversacion

/-- The orchestrator states reachable from construction through any
sequence of procesar calls and nueva_conversacion resets. -/
inductive OrqReach : Orq → Prop where
  | init : OrqReach mkAgenteOrquestador
  | stepProcesar : ∀ {orq : Orq} {fuel : Nat} {c : Client} {m : String} {c' : Client}
      {orq' : Orq} {r : Option String}, OrqReach orq →
      AgenteOrquestador.procesar fuel c orq m = .ok (c', orq', r) → OrqReach orq'
  | stepReset : ∀ {orq : Orq}, OrqReach orq → OrqReach orq.nueva_conversacion

lemma agentReach_inv {prompt : String} {tools : List String} {ag : Agent}
    (h : AgentReach prompt tools ag) :
    ag.system_prompt = prompt ∧ ag.messages.head? = some (Msg.system prompt) := by
  induction h with
  | init => exact ⟨rfl, rfl⟩
  | stepBase hr hs ih =>
      obtain ⟨hp, ht, suf, hm⟩ := base_pensar_mono hs
      exact ⟨hp.trans ih.1, by rw [hm]; exact head?_append_some ih.2⟩
  | stepTools hr hs ih =>
      obtain ⟨hp, ht, suf, hm⟩ := pensar_tools_mono hs
      exact ⟨hp.trans ih.1, by rw [hm]; exact head?_append_some ih.2⟩
  | stepReset hr ih =>
      exact ⟨ih.1, by simp [Agent.nueva_conversacion, ih.1]⟩

lemma orqReach_inv {orq : Orq} (h : OrqReach orq) :
    orq.system_prompt = PROMPT_ORQUESTADOR
      ∧ orq.messages.head? = some (Msg.system PROMPT_ORQUESTADOR) := by
  induction h with
  | init => exact ⟨rfl, rfl⟩
  | stepProcesar hr hs ih =>
      obtain ⟨hp, suf, hm⟩ := procesar_mono hs
      exact ⟨hp.trans ih.1, by rw [hm]; exact head?_append_some ih.2⟩
  | stepReset hr ih =>
      exact ⟨ih.1, by simp [Orq.nueva_conversacion, ih.1]⟩

/-- Claim C3: along every sequence of pensar / procesar calls and resets,
the first history message is always the system message carrying the prompt
fixed at construction; nueva_conversacion restores exactly the one-element
history; and resetting twice equals resetting once.  Stated for the
generic agents (AgenteBase construction being the tools = [] case) and for
the orchestrator. -/
theorem c3_history_invariant :
    (∀ (prompt : String) (tools : List String) (ag : Agent),
       AgentReach prompt tools ag →
       ag.messages.head? = some (Msg.system prompt)
       ∧ ag.nueva_conversacion.messages = [Msg.system prompt]
       ∧ ag.nueva_conversacion.nueva_conversacion = ag.nueva_conversacion)
    ∧ (∀ orq : Orq, OrqReach orq →
       orq.messages.head? = some (Msg.system PROMPT_ORQUESTADOR)
       ∧ orq.nueva_conversacion.messages = [Msg.system PROMPT_ORQUESTADOR]
       ∧ orq.nueva_conversacion.nueva_conversacion = orq.nueva_conversacion) := by
  constructor
  · intro prompt tools ag h
    obtain ⟨hp, hh⟩ := agentReach_inv h
    exact ⟨hh, by simp [Agent.nueva_conversacion, hp], by simp [Agent.nueva_conversacion]⟩
  · intro orq h
    obtain ⟨hp, hh⟩ := orqReach_inv h
    exact ⟨hh, by simp [Orq.nueva_conversacion, hp], by simp [Orq.nueva_conversacion]⟩

/-- Witness for c3_history_invariant: the agent state after one concrete
base pensar call from construction, and the freshly built orchestrator. -/
theorem c3_history_invariant_witness :
    ((⟨"p", [], [Msg.system "p", Msg.user "q", Msg.assistant (some "ok")]⟩ : Agent).messages.head?
        = some (Msg.system "p")
      ∧ (⟨"p", [], [Msg.system "p", Msg.user "q", Msg.assistant (some "ok")]⟩ : Agent).nueva_conversacion.messages
        = [Msg.system "p"]
      ∧ (⟨"p", [], [Msg.system "p", Msg.user "q", Msg.assistant (some "ok")]⟩ : Agent).nueva_conversacion.nueva_conversacion
        = (⟨"p", [], [Msg.system "p", Msg.user "q", Msg.assistant (some "ok")]⟩ : Agent).nueva_conversacion)
    ∧ (mkAgenteOrquestador.messages.head? = some (Msg.system PROMPT_ORQUESTADOR)
      ∧ mkAgenteOrquestador.nueva_conversacion.messages = [Msg.system PROMPT_ORQUESTADOR]
      ∧ mkAgenteOrquestador.nueva_conversacion.nueva_conversacion
        = mkAgenteOrquestador.nueva_conversacion) :=
  ⟨c3_history_invariant.1 "p" [] _
      (AgentReach.stepBase (c := ⟨["ok"], []⟩) AgentReach.init rfl),
   c3_history_invariant.2 _ OrqReach.init⟩

/-- Claim C4, the code evaluated at the failing input: executing
calculadora through ejecutar_herramienta with a missing required field
("b" absent) does not produce a text-shaped error result — the keyword
binding of calculadora(**argumentos) raises TypeError, and the exception
propagates out of the pensar tool loop instead of the loop continuing. -/
theorem c4_malformed_args_raise :
    ejecutar_herramienta "calculadora" [("operacion", Val.str "sumar"), ("a", Val.num 2)]
      = .error (.typeError "calculadora() missing required argument")
    ∧ execCallsPensar (mkAgenteConHerramientas "p" ["calculadora"])
        [⟨"t1", "calculadora", [("operacion", Val.str "sumar"), ("a", Val.num 2)]⟩]
      = .error (.typeError "calculadora() missing required argument") := ⟨rfl, rfl⟩

/-- Claim C5: invoking a tool name absent from the registry never raises:
ejecutar_herramienta returns the error text carrying the marker word
Error and the offending name between quotes, and both agent loops append
it as an ordinary tool-result message and re-invoke the model rather than
terminating. -/
theorem c5_unknown_tool_safety :
    (∀ (nombre : String) (argumentos : List (String × Val)),
       nombre ≠ "calculadora" → nombre ≠ "obtener_hora" →
       nombre ≠ "calcular_calorias" → nombre ≠ "consultar_agente_experto" →
       ejecutar_herramienta nombre argumentos
         = .ok (some ("Error: herramienta " ++ comilla ++ nombre ++ comilla
             ++ " no encontrada")))
    ∧ (∀ (fuel : Nat) (c : Client) (content : Option String) (tc : ToolCall)
       (rest : List LLMResponse) (ag : Agent),
       tc.name ≠ "calculadora" → tc.name ≠ "obtener_hora" →
       tc.name ≠ "calcular_calorias" → tc.name ≠ "consultar_agente_experto" →
       pensarToolsLoop (fuel + 1) { c with toolScript := ⟨content, [tc]⟩ :: rest } ag
         = pensarToolsLoop fuel { c with toolScript := rest }
             { ag with messages := ag.messages
                 ++ [Msg.assistantToolCalls [tc],
                     Msg.toolResult tc.id
                       (some ("Error: herramienta " ++ comilla ++ tc.name ++ comilla
                          ++ " no encontrada"))
                       tc.name] })
    ∧ (∀ (fuel : Nat) (c : Client) (content : Option String) (tc : ToolCall)
       (rest : List LLMResponse) (orq : Orq),
       tc.name ≠ "calculadora" → tc.name ≠ "obtener_hora" →
       tc.name ≠ "calcular_calorias" → tc.name ≠ "consultar_agente_experto" →
       procesarLoop (fuel + 1) { c with toolScript := ⟨content, [tc]⟩ :: rest } orq
         = procesarLoop fuel { c with toolScript := rest }
             { orq with messages := orq.messages
                 ++ [Msg.assistantToolCalls [tc],
                     Msg.toolResult tc.id
                       (some ("Error: herramienta " ++ comilla ++ tc.name ++ comilla
                          ++ " no encontrada"))
                       tc.name] }) := by
  have herr : ∀ (nombre : String) (argumentos : List (String × Val)),
      nombre ≠ "calculadora" → nombre ≠ "obtener_hora" →
      nombre ≠ "calcular_calorias" → nombre ≠ "consultar_agente_experto" →
      ejecutar_herramienta nombre argumentos
        = .ok (some ("Error: herramienta " ++ comilla ++ nombre ++ comilla
            ++ " no encontrada")) := by
    intro nombre argumentos h1 h2 h3 h4
    simp [ejecutar_herramienta, h1, h2, h3, h4]
  refine ⟨herr, ?_, ?_⟩
  · intro fuel c content tc rest ag h1 h2 h3 h4
    simp only [pensarToolsLoop, List.isEmpty_cons, Bool.false_eq_true, if_false,
      execCallsPensar, herr tc.name tc.arguments h1 h2 h3 h4]
    congr 1
    simp [List.append_assoc]
  · intro fuel c content tc rest orq h1 h2 h3 h4
    simp only [procesarLoop, List.isEmpty_cons, Bool.false_eq_true, if_false,
      execCallsProcesar, pasoProcesar, h4, if_false,
      herr tc.name tc.arguments h1 h2 h3 h4]
    congr 1
    simp [List.append_assoc]

/-- Witness for c5_unknown_tool_safety at the concrete unknown name
"traducir". -/
theorem c5_unknown_tool_safety_witness :
    (ejecutar_herramienta "traducir" []
       = .ok (some ("Error: herramienta " ++ comilla ++ "traducir" ++ comilla
           ++ " no encontrada")))
    ∧ (pensarToolsLoop 1 ⟨[], [⟨some "x", [⟨"t9", "traducir", []⟩]⟩]⟩
         (mkAgenteConHerramientas "p" ["calculadora"])
       = pensarToolsLoop 0 ⟨[], []⟩
           { mkAgenteConHerramientas "p" ["calculadora"] with messages :=
               (mkAgenteConHerramientas "p" ["calculadora"]).messages
                 ++ [Msg.assistantToolCalls [⟨"t9", "traducir", []⟩],
                     Msg.toolResult "t9"
                       (some ("Error: herramienta " ++ comilla ++ "traducir" ++ comilla
                          ++ " no encontrada"))
                       "traducir"] })
    ∧ (procesarLoop 1 ⟨[], [⟨some "x", [⟨"t9", "traducir", []⟩]⟩]⟩ mkAgenteOrquestador
       = procesarLoop 0 ⟨[], []⟩
           { mkAgenteOrquestador with messages :=
               mkAgenteOrquestador.messages
                 ++ [Msg.assistantToolCalls [⟨"t9", "traducir", []⟩],
                     Msg.toolResult "t9"
                       (some ("Error: herramienta " ++ comilla ++ "traducir" ++ comilla
                          ++ " no encontrada"))
                       "traducir"] }) :=
  ⟨c5_unknown_tool_safety.1 "traducir" []
      (by decide) (by decide) (by decide) (by decide),
   c5_unknown_tool_safety.2.1 0 ⟨[], []⟩ (some "x") ⟨"t9", "traducir", []⟩ []
      (mkAgenteConHerramientas "p" ["calculadora"])
      (by decide) (by decide) (by decide) (by decide),
   c5_unknown_tool_safety.2.2 0 ⟨[], []⟩ (some "x") ⟨"t9", "traducir", []⟩ []
      mkAgenteOrquestador
      (by decide) (by decide) (by decide) (by decide)⟩

/-- Claim C6: delegating with tipo_experto "matematicas" runs pensar on
exactly the matematicas expert of the fixed map — the escritura, codigo
and cocina experts are left untouched (the record update below changes
only the matematicas field) — and the tool-result text is exactly that
expert's returned text; an unknown expert name never raises and yields
the error text instead.  The third conjunct states the same routing as
performed by the procesar for-loop on the reserved tool call. -/
theorem c6_delegation_routing :
    (∀ (fuel : Nat) (c : Client) (orq : Orq) (consulta r : String) (rest : List String),
       c.chatScript = r :: rest →
       consultarExperto fuel c orq (Val.str "matematicas") consulta
         = .ok ({ c with chatScript := rest },
                { orq with expertos := { orq.expertos with matematicas :=
                    { orq.expertos.matematicas with messages :=
                        orq.expertos.matematicas.messages
                          ++ [Msg.user consulta, Msg.assistant (some r)] } } },
                some r))
    ∧ (∀ (fuel : Nat) (c : Client) (orq : Orq) (tipo : Val) (consulta : String),
       tipo ≠ Val.str "matematicas" → tipo ≠ Val.str "escritura" →
       tipo ≠ Val.str "codigo" → tipo ≠ Val.str "cocina" →
       consultarExperto fuel c orq tipo consulta
         = .ok (c, orq,
                some ("Error: no existe el experto " ++ comilla ++ pyStr tipo ++ comilla)))
    ∧ (∀ (fuel : Nat) (c : Client) (orq : Orq) (i q r : String) (rest : List String),
       c.chatScript = r :: rest →
       execCallsProcesar fuel c orq
           [⟨i, "consultar_agente_experto",
              [("tipo_experto", Val.str "matematicas"), ("consulta", Val.str q)]⟩]
         = .ok ({ c with chatScript := rest },
                { orq with
                    expertos := { orq.expertos with matematicas :=
                      { orq.expertos.matematicas with messages :=
                          orq.expertos.matematicas.messages
                            ++ [Msg.user q, Msg.assistant (some r)] } },
                    messages := orq.messages
                      ++ [Msg.toolResult i (some r) "consultar_agente_experto"] })) := by
  have hmat : ∀ (fuel : Nat) (c : Client) (orq : Orq) (consulta r : String)
      (rest : List String), c.chatScript = r :: rest →
      consultarExperto fuel c orq (Val.str "matematicas") consulta
        = .ok ({ c with chatScript := rest },
               { orq with expertos := { orq.expertos with matematicas :=
                   { orq.expertos.matematicas with messages :=
                       orq.expertos.matematicas.messages
                         ++ [Msg.user consulta, Msg.assistant (some r)] } } },
               some r) := by
    intro fuel c orq consulta r rest h
    obtain ⟨chat, tool⟩ := c
    simp only [Client.mk.injEq] at h ⊢
    subst h
    simp [consultarExperto, AgenteBase.pensar]
  refine ⟨hmat, ?_, ?_⟩
  · intro fuel c orq tipo consulta h1 h2 h3 h4
    unfold consultarExperto
    split <;> simp_all
  · intro fuel c orq i q r rest h
    have step := hmat fuel c orq q r rest h
    simp only [execCallsProcesar, pasoProcesar, if_true, lookupVal, List.find?,
      beq_self_eq_true, Option.map_some]
    simp only [show ("tipo_experto" == "consulta") = false from rfl]
    simp [step, pyStr, List.append_assoc]

/-- Witness for c6_delegation_routing: a one-reply chat script answering
"4", queried via the delegation tool, and the unknown expert "quimica". -/
theorem c6_delegation_routing_witness :
    (consultarExperto 1 ⟨["4"], []⟩ mkAgenteOrquestador (Val.str "matematicas") "2+2"
       = .ok (⟨[], []⟩,
              { mkAgenteOrquestador with expertos :=
                  { mkAgenteOrquestador.expertos with matematicas :=
                      { mkAgenteOrquestador.expertos.matematicas with messages :=
                          mkAgenteOrquestador.expertos.matematicas.messages
                            ++ [Msg.user "2+2", Msg.assistant (some "4")] } } },
              some "4"))
    ∧ (consultarExperto 1 ⟨["4"], []⟩ mkAgenteOrquestador (Val.str "quimica") "H2O"
       = .ok (⟨["4"], []⟩, mkAgenteOrquestador,
              some ("Error: no existe el experto " ++ comilla ++ pyStr (Val.str "quimica")
                ++ comilla)))
    ∧ (execCallsProcesar 1 ⟨["4"], []⟩ mkAgenteOrquestador
         [⟨"d1", "consultar_agente_experto",
            [("tipo_experto", Val.str "matematicas"), ("consulta", Val.str "2+2")]⟩]
       = .ok (⟨[], []⟩,
              { mkAgenteOrquestador with
                  expertos := { mkAgenteOrquestador.expertos with matematicas :=
                    { mkAgenteOrquestador.expertos.matematicas with messages :=
                        mkAgenteOrquestador.expertos.matematicas.messages
                          ++ [Msg.user "2+2", Msg.assistant (some "4")] } },
                  messages := mkAgenteOrquestador.messages
                    ++ [Msg.toolResult "d1" (some "4") "consultar_agente_experto"] })) :=
  ⟨c6_delegation_routing.1 1 ⟨["4"], []⟩ mkAgenteOrquestador "2+2" "4" [] rfl,
   c6_delegation_routing.2.1 1 ⟨["4"], []⟩ mkAgenteOrquestador (Val.str "quimica") "H2O"
      (by simp) (by simp) (by simp) (by simp),
   c6_delegation_routing.2.2 1 ⟨["4"], []⟩ mkAgenteOrquestador "d1" "2+2" "4" [] rfl⟩

/-- Claim C7: the loops treat a reply as final exactly when its tool-call
list is empty.  A reply with no tool calls ends the loop at once, its
content appended as the assistant turn and returned; a reply with at
least one tool call is processed identically for any content value — the
text is ignored and never appended as an assistant text message, and the
model is re-invoked. -/
theorem c7_finality_criterion :
    (∀ (fuel : Nat) (c : Client) (resp : LLMResponse) (rest : List LLMResponse)
       (ag : Agent), resp.toolCalls = [] →
       pensarToolsLoop (fuel + 1) { c with toolScript := resp :: rest } ag
         = .ok ({ c with toolScript := rest },
                { ag with messages := ag.messages ++ [Msg.assistant resp.content] },
                resp.content))
    ∧ (∀ (fuel : Nat) (c : Client) (resp : LLMResponse) (rest : List LLMResponse)
       (orq : Orq), resp.toolCalls = [] →
       procesarLoop (fuel + 1) { c with toolScript := resp :: rest } orq
         = .ok ({ c with toolScript := rest },
                { orq with messages := orq.messages ++ [Msg.assistant resp.content] },
                resp.content))
    ∧ (∀ (fuel : Nat) (c : Client) (content content' : Option String)
       (tcs : List ToolCall) (rest : List LLMResponse) (ag : Agent), tcs ≠ [] →
       pensarToolsLoop (fuel + 1) { c with toolScript := ⟨content, tcs⟩ :: rest } ag
         = pensarToolsLoop (fuel + 1) { c with toolScript := ⟨content', tcs⟩ :: rest } ag)
    ∧ (∀ (fuel : Nat) (c : Client) (content content' : Option String)
       (tcs : List ToolCall) (rest : List LLMResponse) (orq : Orq), tcs ≠ [] →
       procesarLoop (fuel + 1) { c with toolScript := ⟨content, tcs⟩ :: rest } orq
         = procesarLoop (fuel + 1) { c with toolScript := ⟨content', tcs⟩ :: rest } orq) := by
  refine ⟨?_, ?_, ?_, ?_⟩
  · intro fuel c resp rest ag h
    simp [pensarToolsLoop, h]
  · intro fuel c resp rest orq h
    simp [procesarLoop, h]
  · intro fuel c content content' tcs rest ag h
    simp only [pensarToolsLoop, isEmpty_false_of_ne h, Bool.false_eq_true, if_false]
  · intro fuel c content content' tcs rest orq h
    simp only [procesarLoop, isEmpty_false_of_ne h, Bool.false_eq_true, if_false]

/-- Witness for c7_finality_criterion: a final reply carrying text, and an
acting reply whose text differs between the two runs. -/
theorem c7_finality_criterion_witness :
    (pensarToolsLoop 1 ⟨[], [⟨some "fin", []⟩]⟩ (mkAgenteConHerramientas "p" ["calculadora"])
       = .ok (⟨[], []⟩,
              { mkAgenteConHerramientas "p" ["calculadora"] with messages :=
                  (mkAgenteConHerramientas "p" ["calculadora"]).messages
                    ++ [Msg.assistant (some "fin")] },
              some "fin"))
    ∧ (procesarLoop 1 ⟨[], [⟨some "fin", []⟩]⟩ mkAgenteOrquestador
       = .ok (⟨[], []⟩,
              { mkAgenteOrquestador with messages :=
                  mkAgenteOrquestador.messages ++ [Msg.assistant (some "fin")] },
              some "fin"))
    ∧ (pensarToolsLoop 1 ⟨[], [⟨some "ignorado", [⟨"t1", "obtener_hora", []⟩]⟩]⟩
         (mkAgenteConHerramientas "p" ["calculadora"])
       = pensarToolsLoop 1 ⟨[], [⟨Option.none, [⟨"t1", "obtener_hora", []⟩]⟩]⟩
           (mkAgenteConHerramientas "p" ["calculadora"]))
    ∧ (procesarLoop 1 ⟨[], [⟨some "ignorado", [⟨"t1", "obtener_hora", []⟩]⟩]⟩
         mkAgenteOrquestador
       = procesarLoop 1 ⟨[], [⟨Option.none, [⟨"t1", "obtener_hora", []⟩]⟩]⟩
           mkAgenteOrquestador) :=
  ⟨c7_finality_criterion.1 0 ⟨[], []⟩ ⟨some "fin", []⟩ []
      (mkAgenteConHerramientas "p" ["calculadora"]) rfl,
   c7_finality_criterion.2.1 0 ⟨[], []⟩ ⟨some "fin", []⟩ [] mkAgenteOrquestador rfl,
   c7_finality_criterion.2.2.1 0 ⟨[], []⟩ (some "ignorado") Option.none
      [⟨"t1", "obtener_hora", []⟩] [] (mkAgenteConHerramientas "p" ["calculadora"])
      (by simp),
   c7_finality_criterion.2.2.2 0 ⟨[], []⟩ (some "ignorado") Option.none
      [⟨"t1", "obtener_hora", []⟩] [] mkAgenteOrquestador (by simp)⟩

/-- Claim C8: calculadora called with operacion "dividir" and b = 0 never
raises — for every first operand the lambda's y != 0 guard returns the
result text ending in the division-by-zero explanation — and
calcular_calorias with num_porciones <= 0 never raises a division error:
the num_porciones > 0 guard skips the per-portion division and a report
string is still returned. -/
theorem c8_division_guards :
    (∀ a : Val, ∃ t, calculadora (Val.str "dividir") a (Val.num 0)
       = .ok (t ++ "Error: división por cero"))
    ∧ (∀ (ings : List Ingrediente) (p : Rat), p ≤ 0 →
       ∃ s, calcular_calorias ings p = .ok s) := by
  constructor
  · intro a
    refine ⟨"El resultado de " ++ pyStr a ++ " " ++ pyStr (Val.str "dividir") ++ " "
      ++ pyStr (Val.num 0) ++ " = ", ?_⟩
    simp [calculadora, opDividir, pyNeZero, pyStr]
  · intro ings p hp
    refine ⟨renderCalorias (caloriasState ings).1 (caloriasState ings).2 p
      (caloriasState ings).1, ?_⟩
    have hng : ¬ (0 : Rat) < p := not_lt.mpr hp
    simp [calcular_calorias, hng]

/-- Witness for c8_division_guards: dividing 7 by zero, and a one-recipe
calorie report for zero portions. -/
theorem c8_division_guards_witness :
    (∃ t, calculadora (Val.str "dividir") (Val.num 7) (Val.num 0)
       = .ok (t ++ "Error: división por cero"))
    ∧ (∃ s, calcular_calorias [⟨"pollo", 100⟩] 0 = .ok s) :=
  ⟨c8_division_guards.1 (Val.num 7), c8_division_guards.2 [⟨"pollo", 100⟩] 0 le_rfl⟩

/-- The calorie contribution an ingredient makes to the accumulated total
of calcular_calorias: the matched database calories scaled by weight, and
zero when no database key matches. -/
def contribucion (ing : Ingrediente) : Rat :=
  match buscarCalorias (pyLower ing.nombre) with
  | some cal => ing.cantidad_gramos * (cal : Rat) / 100
  | Option.none => 0

lemma caloriasStep_none {acc : Rat × List String} {ing : Ingrediente}
    (h : buscarCalorias (pyLower ing.nombre) = Option.none) :
    caloriasStep acc ing
      = (acc.1, acc.2 ++ ["  - " ++ pyLower ing.nombre ++ ": "
          ++ pyNumRepr ing.cantidad_gramos ++ "g → ~"
          ++ toString (pyInt (ing.cantidad_gramos * 100 / 100)) ++ " kcal (estimado)"]) := by
  simp [caloriasStep, h]

lemma caloriasStep_some {acc : Rat × List String} {ing : Ingrediente} {cal : Nat}
    (h : buscarCalorias (pyLower ing.nombre) = some cal) :
    caloriasStep acc ing
      = (acc.1 + ing.cantidad_gramos * (cal : Rat) / 100,
         acc.2 ++ ["  - " ++ pyLower ing.nombre ++ ": "
           ++ pyNumRepr ing.cantidad_gramos ++ "g → "
           ++ toString (pyInt (ing.cantidad_gramos * (cal : Rat) / 100)) ++ " kcal"]) := by
  simp [caloriasStep, h]

lemma caloriasFold_spec : ∀ (ings : List Ingrediente) (t : Rat) (ds : List String),
    (ings.foldl caloriasStep (t, ds)).1 = t + (ings.map contribucion).sum
      ∧ (ings.foldl caloriasStep (t, ds)).2.length = ds.length + ings.length
  | [], t, ds => by simp
  | ing :: rest, t, ds => by
      cases hb : buscarCalorias (pyLower ing.nombre) with
      | none =>
          have h := caloriasFold_spec rest t (ds ++ ["  - " ++ pyLower ing.nombre ++ ": "
            ++ pyNumRepr ing.cantidad_gramos ++ "g → ~"
            ++ toString (pyInt (ing.cantidad_gramos * 100 / 100)) ++ " kcal (estimado)"])
          constructor
          · rw [List.foldl_cons, caloriasStep_none hb, h.1]
            simp [contribucion, hb]
          · rw [List.foldl_cons, caloriasStep_none hb, h.2]
            simp
            omega
      | some cal =>
          have h := caloriasFold_spec rest (t + ing.cantidad_gramos * (cal : Rat) / 100)
            (ds ++ ["  - " ++ pyLower ing.nombre ++ ": "
              ++ pyNumRepr ing.cantidad_gramos ++ "g → "
              ++ toString (pyInt (ing.cantidad_gramos * (cal : Rat) / 100)) ++ " kcal"])
          constructor
          · rw [List.foldl_cons, caloriasStep_some hb, h.1]
            simp [contribucion, hb]
            ring
          · rw [List.foldl_cons, caloriasStep_some hb, h.2]
            simp
            omega

/-- Claim C9: the accumulated calorie total sums exactly the matched
ingredients' contributions — an unmatched ingredient contributes zero to
the total while still producing its own estimated breakdown line at the
100 kcal / 100 g default — and for positive num_porciones the report is
rendered from that same total and the per-portion figure
total / num_porciones, so the estimate enters neither reported figure. -/
theorem c9_unmatched_excluded :
    (∀ ings : List Ingrediente, (caloriasState ings).1 = (ings.map contribucion).sum)
    ∧ (∀ ings : List Ingrediente, (caloriasState ings).2.length = ings.length)
    ∧ (∀ (acc : Rat × List String) (ing : Ingrediente),
       buscarCalorias (pyLower ing.nombre) = Option.none →
       caloriasStep acc ing = (acc.1, acc.2 ++ ["  - " ++ pyLower ing.nombre ++ ": "
         ++ pyNumRepr ing.cantidad_gramos ++ "g → ~"
         ++ toString (pyInt (ing.cantidad_gramos * 100 / 100)) ++ " kcal (estimado)"]))
    ∧ (∀ (ings : List Ingrediente) (p : Rat), 0 < p →
       calcular_calorias ings p
         = .ok (renderCalorias (caloriasState ings).1 (caloriasState ings).2 p
             ((caloriasState ings).1 / p))) := by
  refine ⟨?_, ?_, ?_, ?_⟩
  · intro ings
    have h := (caloriasFold_spec ings 0 []).1
    simpa [caloriasState] using h
  · intro ings
    have h := (caloriasFold_spec ings 0 []).2
    simpa [caloriasState] using h
  · intro acc ing h
    exact caloriasStep_none h
  · intro ings p hp
    simp [calcular_calorias, hp, pyDivRat, hp.ne']

/-- Witness for c9_unmatched_excluded: chicken (matched) together with an
unknown ingredient, three portions. -/
theorem c9_unmatched_excluded_witness :
    ((caloriasState [⟨"Pollo", 150⟩, ⟨"unicornio", 60⟩]).1
       = ([⟨"Pollo", 150⟩, ⟨"unicornio", 60⟩].map contribucion).sum)
    ∧ ((caloriasState [⟨"Pollo", 150⟩, ⟨"unicornio", 60⟩]).2.length
       = ([⟨"Pollo", 150⟩, ⟨"unicornio", 60⟩] : List Ingrediente).length)
    ∧ (caloriasStep (0, []) ⟨"unicornio", 60⟩
       = ((0 : Rat), ([] : List String) ++ ["  - " ++ pyLower "unicornio" ++ ": "
           ++ pyNumRepr (60 : Rat) ++ "g → ~"
           ++ toString (pyInt ((60 : Rat) * 100 / 100)) ++ " kcal (estimado)"]))
    ∧ (calcular_calorias [⟨"Pollo", 150⟩, ⟨"unicornio", 60⟩] 3
       = .ok (renderCalorias (caloriasState [⟨"Pollo", 150⟩, ⟨"unicornio", 60⟩]).1
           (caloriasState [⟨"Pollo", 150⟩, ⟨"unicornio", 60⟩]).2 3
           ((caloriasState [⟨"Pollo", 150⟩, ⟨"unicornio", 60⟩]).1 / 3))) :=
  ⟨c9_unmatched_excluded.1 [⟨"Pollo", 150⟩, ⟨"unicornio", 60⟩],
   c9_unmatched_excluded.2.1 [⟨"Pollo", 150⟩, ⟨"unicornio", 60⟩],
   c9_unmatched_excluded.2.2.1 (0, []) ⟨"unicornio", 60⟩ rfl,
   c9_unmatched_excluded.2.2.2 [⟨"Pollo", 150⟩, ⟨"unicornio", 60⟩] 3 (by norm_num)⟩

/-- Claim C10: every non-exceptional dispatcher result is a string except
for the reserved name consultar_agente_experto, the only name for which
ejecutar_herramienta returns None; the pensar loop forwards even the
reserved call straight to the dispatcher, appending a tool result whose
content is that None, while procesar intercepts the name before the
registry and appends delegation text (here, the unknown-expert error
text) instead. -/
theorem c10_reserved_name_none :
    (∀ argumentos : List (String × Val),
       ejecutar_herramienta "consultar_agente_experto" argumentos = .ok Option.none)
    ∧ (∀ (nombre : String) (argumentos : List (String × Val)) (r : Option String),
       ejecutar_herramienta nombre argumentos = .ok r →
       (r = Option.none ↔ nombre = "consultar_agente_experto"))
    ∧ (∀ (ag : Agent) (i : String) (args : List (String × Val)),
       execCallsPensar ag [⟨i, "consultar_agente_experto", args⟩]
         = .ok { ag with messages := ag.messages
             ++ [Msg.toolResult i Option.none "consultar_agente_experto"] })
    ∧ (∀ (fuel : Nat) (c : Client) (orq : Orq) (i q t : String),
       t ≠ "matematicas" → t ≠ "escritura" → t ≠ "codigo" → t ≠ "cocina" →
       execCallsProcesar fuel c orq
           [⟨i, "consultar_agente_experto",
              [("tipo_experto", Val.str t), ("consulta", Val.str q)]⟩]
         = .ok (c, { orq with messages := orq.messages
             ++ [Msg.toolResult i
                  (some ("Error: no existe el experto " ++ comilla ++ t ++ comilla))
                  "consultar_agente_experto"] })) := by
  refine ⟨?_, ?_, ?_, ?_⟩
  · intro argumentos
    simp [ejecutar_herramienta]
  · intro nombre argumentos r h
    constructor
    · intro hr
      subst hr
      unfold ejecutar_herramienta at h
      split at h
      · split at h <;> (try split at h) <;> simp_all
      · split at h
        · simp_all
        · split at h
          · split at h <;> (try split at h) <;> simp_all
          · split at h
            · rename_i hn
              exact hn
            · simp_all
    · intro hr
      subst hr
      have h0 : ejecutar_herramienta "consultar_agente_experto" argumentos
          = .ok Option.none := by simp [ejecutar_herramienta]
      rw [h0] at h
      simp only [Except.ok.injEq] at h
      exact h.symm
  · intro ag i args
    simp [execCallsPensar, ejecutar_herramienta]
  · intro fuel c orq i q t h1 h2 h3 h4
    have hx : consultarExperto fuel c orq (Val.str t) q
        = .ok (c, orq,
               some ("Error: no existe el experto " ++ comilla ++ t ++ comilla)) := by
      unfold consultarExperto
      split <;> simp_all [pyStr]
    simp [execCallsProcesar, pasoProcesar, lookupVal, hx, pyStr]

/-- Witness for c10_reserved_name_none: the reserved name with empty
arguments, a clock dispatch for the string side of the iff, and a
delegation to the unknown expert "alquimia". -/
theorem c10_reserved_name_none_witness :
    (ejecutar_herramienta "consultar_agente_experto" [] = .ok Option.none)
    ∧ (some obtener_hora = Option.none ↔ "obtener_hora" = "consultar_agente_experto")
    ∧ (execCallsPensar (mkAgenteConHerramientas "p" ["calculadora"])
         [⟨"t3", "consultar_agente_experto", []⟩]
       = .ok { mkAgenteConHerramientas "p" ["calculadora"] with messages :=
           (mkAgenteConHerramientas "p" ["calculadora"]).messages
             ++ [Msg.toolResult "t3" Option.none "consultar_agente_experto"] })
    ∧ (execCallsProcesar 1 ⟨[], []⟩ mkAgenteOrquestador
         [⟨"t4", "consultar_agente_experto",
            [("tipo_experto", Val.str "alquimia"), ("consulta", Val.str "oro")]⟩]
       = .ok (⟨[], []⟩, { mkAgenteOrquestador with messages :=
           mkAgenteOrquestador.messages
             ++ [Msg.toolResult "t4"
                  (some ("Error: no existe el experto " ++ comilla ++ "alquimia" ++ comilla))
                  "consultar_agente_experto"] })) :=
  ⟨c10_reserved_name_none.1 [],
   c10_reserved_name_none.2.1 "obtener_hora" [] (some obtener_hora) rfl,
   c10_reserved_name_none.2.2.1 (mkAgenteConHerramientas "p" ["calculadora"]) "t3" [],
   c10_reserved_name_none.2.2.2 1 ⟨[], []⟩ mkAgenteOrquestador "t4" "oro" "alquimia"
      (by decide) (by decide) (by decide) (by decide)⟩
